import Mathlib

/-!
Shallow embedding of the Enhanced TCR (text-based Clash Royale) server,
a Go program.  The embedding follows the Go sources:

* `internal/models`            — data model (`game_entities.go`, spec structs)
* `internal/game`              — combat math (`CalculateDamage`, `HealTower`),
                                 targeting (`FindLowestHPTower`,
                                 `FindTroopToAttack`), `ApplyQueenHeal`
* `internal/persistence`       — experience curve (`calculateExpForNextLevel`,
                                 `UpdatePlayerAfterGame`)
* `internal/server`            — the game-session state and the deploy-command
                                 handler (`game_session.go`), the session
                                 manager (`session_manager.go`) and the
                                 matchmaking notification (`matchmaking_tcp.go`)

Modelling conventions:

* Go `int` is modelled as `Int`; `uint32` sequence numbers and nanosecond
  timestamps as `Nat`.
* Go `float64` arithmetic that is immediately truncated to `int`
  (`int(float64(atk)*1.2)`, the `100 * 1.1^(n-1)` experience curve and the
  `1.1^(level-1)` stat multiplier) is modelled by exact rational arithmetic
  followed by truncation; for the value ranges the program works with the
  two computations agree.
* Go maps are modelled as association lists; where the program iterates
  over a map (whose order Go leaves unspecified) the list order of the
  embedding stands for one possible iteration order.
* `rand.Float64() < critChance` is modelled by a boolean parameter standing
  for the outcome of the draw.
* Network sends are modelled as a list of emitted `ServerOutput` values;
  a send guarded in Go by "client address known" is emitted exactly when
  the address table of the state has an entry for the player token.
-/

/-- `models.TowerSpec` (game_entities spec file). -/
structure TowerSpec where
  id : String
  name : String
  baseHP : Int
  baseATK : Int
  baseDEF : Int
  critChance : ℚ
  expYield : Int
deriving DecidableEq, Repr

/-- `models.TroopSpec`. -/
structure TroopSpec where
  id : String
  name : String
  manaCost : Int
  baseHP : Int
  baseATK : Int
  baseDEF : Int
deriving DecidableEq, Repr

/-- `models.TowerInstance`. -/
structure TowerInstance where
  specID : String
  ownerID : String
  currentHP : Int
  maxHP : Int
  currentATK : Int
  currentDEF : Int
  isDestroyed : Bool
  gameSpecificID : String
deriving DecidableEq, Repr

/-- `models.ActiveTroop`; `DeployedAt : time.Time` is a `Nat` tick. -/
structure ActiveTroop where
  instanceID : String
  specID : String
  ownerID : String
  currentHP : Int
  maxHP : Int
  currentATK : Int
  currentDEF : Int
  deployedAt : Nat
deriving DecidableEq, Repr

/-- `models.PlayerAccount` (persistent account: username, EXP, level). -/
structure PlayerAccount where
  username : String
  exp : Int
  level : Int
deriving DecidableEq, Repr

/-- `models.PlayerInGame` (fields relevant to the session engine). -/
structure PlayerInGame where
  account : PlayerAccount
  currentMana : Int
  towers : List TowerInstance
  deployedTroops : List (String × ActiveTroop)
  sessionToken : String
deriving DecidableEq, Repr

/-- `models.GameConfig`: tower and troop specs keyed by id. -/
structure GameConfig where
  towers : List (String × TowerSpec)
  troops : List (String × TroopSpec)
deriving DecidableEq, Repr

/-! ## Combat math (`internal/game`, combat file) -/

/-- `game.CalculateDamage`.  The Go source draws
`rand.Float64() < towerCritChance`; the draw's outcome is the parameter
`critRolled`.  `int(float64(attackerATK)*1.2)` (truncation toward zero) is
modelled as `Int.tdiv (12 * attackerATK) 10`. -/
def CalculateDamage (attackerATK defenderDEF : Int) (isTowerAttack critRolled : Bool) : Int :=
  let dmg :=
    if isTowerAttack && critRolled then
      Int.tdiv (12 * attackerATK) 10 - defenderDEF
    else
      attackerATK - defenderDEF
  if dmg < 0 then 0 else dmg

/-- `game.HealTower`: add `healAmount`, clamp to `MaxHP`. -/
def HealTower (t : TowerInstance) (healAmount : Int) : TowerInstance :=
  let hp := t.currentHP + healAmount
  { t with currentHP := if t.maxHP < hp then t.maxHP else hp }

/-! ## Targeting (`internal/game`, rules file) -/

/-- Whether the pattern list occurs at the head of the second list. -/
def charsStartWith : List Char → List Char → Bool
  | [], _ => true
  | _ :: _, [] => false
  | p :: ps, c :: cs => p == c && charsStartWith ps cs

/-- Whether the second list contains the first as a contiguous sublist. -/
def charsContain (pat : List Char) : List Char → Bool
  | [] => charsStartWith pat []
  | c :: rest => charsStartWith pat (c :: rest) || charsContain pat rest

/-- `strings.Contains s pat`. -/
def strContains (s pat : String) : Bool :=
  charsContain pat.toList s.toList

/-- `strings.ToLower`, character-wise. -/
def strLower (s : String) : String :=
  String.mk (s.toList.map Char.toLower)

/-- The guard-tower-1 test used by `FindLowestHPTower`:
`strings.Contains(strings.ToLower(t.SpecID), "guard_tower_1")`. -/
def containsGT1 (specID : String) : Bool :=
  strContains (strLower specID) "guard_tower_1"

/-- First element of a list attaining the minimum of `key`.  Models taking
index 0 of a slice sorted ascending by `key`. -/
def firstMinKey {α β : Type} [LinearOrder β] (key : α → β) : List α → Option α
  | [] => none
  | t :: ts =>
    match firstMinKey key ts with
    | none => some t
    | some u => if key t ≤ key u then some t else some u

/-- First element of the list holding the minimum `currentHP`.  The Go code
sorts with the unstable `sort.Slice` by `CurrentHP <` and takes index 0;
any element of minimal HP may come first, and the embedding fixes the
first-listed minimal one. -/
def firstMinHP (l : List TowerInstance) : Option TowerInstance :=
  firstMinKey (fun t => t.currentHP) l

/-- `game.FindLowestHPTower`, valid-target computation: if a tower whose
spec id contains `guard_tower_1` exists and is alive it is the only valid
target; otherwise all HP>0 towers are valid. -/
def validTargets (towers : List TowerInstance) : List TowerInstance :=
  match towers.find? (fun t => containsGT1 t.specID) with
  | some gt1 =>
    if 0 < gt1.currentHP then [gt1]
    else towers.filter (fun t => 0 < t.currentHP)
  | none => towers.filter (fun t => 0 < t.currentHP)

/-- Opponent selection shared by the targeting functions:
`if game.Player1.Account.Username == id { Player2 } else { Player1 }`. -/
def opponentOf (playerID : String) (p1 p2 : PlayerInGame) : PlayerInGame :=
  if p1.account.username = playerID then p2 else p1

/-- `game.FindLowestHPTower`. -/
def FindLowestHPTower (attackingPlayerID : String) (p1 p2 : PlayerInGame) :
    Option TowerInstance :=
  let opp := opponentOf attackingPlayerID p1 p2
  if opp.towers.isEmpty then none
  else firstMinHP (validTargets opp.towers)

/-- First element of the list holding the minimum `deployedAt`.  Models the
head of the `sort.Slice ... DeployedAt.Before` result: `sort.Slice` is a
stable insertion sort on slices this small, so of timestamp-tied troops the
one listed first by the (arbitrary) map iteration order comes out first. -/
def firstOldest (l : List ActiveTroop) : Option ActiveTroop :=
  firstMinKey (fun t => t.deployedAt) l

/-- `game.FindTroopToAttack`: oldest live troop of the opponent.  The list
order of `deployedTroops` stands for one possible Go map iteration order. -/
def FindTroopToAttack (towerOwnerID : String) (p1 p2 : PlayerInGame) :
    Option ActiveTroop :=
  let opp := opponentOf towerOwnerID p1 p2
  if opp.deployedTroops.isEmpty then none
  else
    let live := (opp.deployedTroops.map (fun pr => pr.2)).filter
      (fun tr => 0 < tr.currentHP)
    if live.isEmpty then none else firstOldest live

/-! ## Progression (`internal/persistence`) -/

/-- The accumulator of the loop in `calculateExpForNextLevel` after `n`
iterations: `expNeeded := 100.0; expNeeded *= 1.1` (n times), modelled over
the rationals. -/
def expNeededAfter : Nat → ℚ
  | 0 => 100
  | n + 1 => expNeededAfter n * (11 / 10)

/-- `persistence.calculateExpForNextLevel`: EXP needed to go from
`currentLevel` to the next level; the float accumulator is truncated to
`int` at the end (values are positive, so truncation is the floor). -/
def calculateExpForNextLevel (currentLevel : Int) : Int :=
  if currentLevel < 1 then 100
  else ⌊expNeededAfter (currentLevel - 1).toNat⌋

/-- The level-up loop of `persistence.UpdatePlayerAfterGame`:
`for acc.EXP >= expForNext { acc.Level++; acc.EXP -= expForNext; ... }`.
Returns the final level, the final EXP, and the `didLevelUp` flag.  The
loop terminates because each requirement is at least 100. -/
def applyLevelUps (level : Int) (e : Int) : Int × Int × Bool :=
  if _h : calculateExpForNextLevel level ≤ e then
    let r := applyLevelUps (level + 1) (e - calculateExpForNextLevel level)
    (r.1, r.2.1, true)
  else (level, e, false)
termination_by e.toNat
decreasing_by
  have hq : ∀ n : Nat, (100 : ℚ) ≤ expNeededAfter n := by
    intro n
    induction n with
    | zero => simp [expNeededAfter]
    | succ k ih => rw [expNeededAfter]; nlinarith
  have h100 : 100 ≤ calculateExpForNextLevel level := by
    unfold calculateExpForNextLevel
    split
    · omega
    · exact Int.le_floor.mpr (by exact_mod_cast hq _)
  omega

/-- `persistence.UpdatePlayerAfterGame` (pure part: the EXP update and the
level-up loop; saving the account to disk is outside the model). -/
def UpdatePlayerAfterGame (acc : PlayerAccount) (expGained : Int) :
    PlayerAccount × Bool :=
  let r := applyLevelUps acc.level (acc.exp + expGained)
  ({ acc with level := r.1, exp := r.2.1 }, r.2.2)

/-- Sum of the per-level requirements for `n` consecutive level-ups
starting at `level`. -/
def reqSum (level : Int) : Nat → Int
  | 0 => 0
  | n + 1 => calculateExpForNextLevel level + reqSum (level + 1) n

/-! ## Level-based stat scaling (`initializePlayerTowers`, deploy handler) -/

/-- Number of `*= 1.1` iterations of the level-multiplier loop. -/
def levelMultSteps (level : Int) : Nat :=
  if 1 < level then (level - 1).toNat else 0

/-- `int(float64(base) * levelMultiplier)` with
`levelMultiplier = 1.1^(level-1)`, modelled exactly over ℚ. -/
def levelScaledStat (base : Int) (level : Int) : Int :=
  ⌊(base : ℚ) * (11 / 10) ^ levelMultSteps level⌋

/-! ## Session state and the deploy handler (`internal/server/game_session.go`) -/

/-- Which of the two players of a session. -/
inductive PSide where
  | one
  | two
deriving DecidableEq, Repr

/-- Messages the handler can emit over UDP (acknowledgments and game
events; the snapshot broadcast of the tick loop is not modelled). -/
inductive ServerOutput where
  | commandAck (playerToken : String) (ackSeq : Nat)
  | gameEventError (playerToken : String) (message : String)
  | queenHealEvent (playerID : String) (towerInfo : Option (String × Int × Int))
  | troopDeployedEvent (playerID : String) (troopInstanceID : String) (troopSpecID : String)
deriving DecidableEq, Repr

/-- The payload-relevant part of a `network.UDPMessage` action. -/
inductive UDPAction where
  | playerQuit
  | deployTroop (troopID : String)
  | otherAction
deriving DecidableEq, Repr

/-- `network.UDPMessage` (fields the handler reads). -/
structure UDPMessage where
  seq : Nat
  sessionID : String
  playerToken : String
  action : UDPAction
deriving DecidableEq, Repr

/-- `server.GameSession` mutable state (fields the modelled code touches).
`playerClientAddresses` maps a player token to its last-seen UDP address
(addresses are opaque `Nat`s); `processedDeployCommands` maps a player
token to the sequence numbers already processed. -/
structure GameState where
  id : String
  player1 : PlayerInGame
  player2 : PlayerInGame
  config : GameConfig
  activeTroops : List (String × ActiveTroop)
  processedDeployCommands : List (String × List Nat)
  playerClientAddresses : List (String × Nat)
  player1Quit : Bool
  player2Quit : Bool
deriving DecidableEq, Repr

def GameState.getPlayer (gs : GameState) : PSide → PlayerInGame
  | .one => gs.player1
  | .two => gs.player2

def GameState.setPlayer (gs : GameState) : PSide → PlayerInGame → GameState
  | .one, p => { gs with player1 := p }
  | .two, p => { gs with player2 := p }

/-- Which player a token belongs to (`msg.PlayerToken == gs.Player1.SessionToken`
is checked first, then player 2). -/
def sideOfToken (gs : GameState) (tok : String) : Option PSide :=
  if tok = gs.player1.sessionToken then some .one
  else if tok = gs.player2.sessionToken then some .two
  else none

/-- Sequence numbers already processed for a token. -/
def processedSeqs (gs : GameState) (tok : String) : List Nat :=
  (gs.processedDeployCommands.lookup tok).getD []

/-- Record `(tok, seq)` in the processed-command table. -/
def recordProcessed : List (String × List Nat) → String → Nat → List (String × List Nat)
  | [], tok, seq => [(tok, [seq])]
  | (t, seqs) :: rest, tok, seq =>
    if t = tok then (t, seq :: seqs) :: rest
    else (t, seqs) :: recordProcessed rest tok seq

/-- `GameSession.sendGameEventToPlayer`: the event is sent only when the
player's UDP address is known. -/
def eventToPlayer (addrs : List (String × Nat)) (tok : String)
    (ev : ServerOutput) : List ServerOutput :=
  match addrs.lookup tok with
  | some _ => [ev]
  | none => []

/-- The ACK send: emitted only when the client's UDP address is known
(`gs.playerClientAddresses[msg.PlayerToken]`), as in the Go handler. -/
def ackOutputs (addrs : List (String × Nat)) (tok : String) (seq : Nat) :
    List ServerOutput :=
  eventToPlayer addrs tok (ServerOutput.commandAck tok seq)

/-- Heal-target eligibility in `game.ApplyQueenHeal`:
`tower.CurrentHP > 0 && tower.CurrentHP < tower.MaxHP`. -/
def eligibleForHeal (t : TowerInstance) : Bool :=
  decide (0 < t.currentHP) && decide (t.currentHP < t.maxHP)

/-- Target chosen by `game.ApplyQueenHeal`: the eligible friendly tower of
lowest current HP (first-listed minimal one; see `firstMinHP`). -/
def chooseHealTarget (towers : List TowerInstance) : Option TowerInstance :=
  firstMinHP (towers.filter eligibleForHeal)

/-- Replace the first occurrence of `a` by `b`. -/
def replaceFirst {α : Type} [DecidableEq α] : List α → α → α → List α
  | [], _, _ => []
  | x :: xs, a, b => if x = a then b :: xs else x :: replaceFirst xs a b

/-- Queen branch of the deploy handler (mana already deducted):
`game.ApplyQueenHeal` with heal amount 300, then the heal event, the
processed-command record and the ACK.  No troop is created.
`ApplyQueenHeal`'s error return (deploying player not found) is
unreachable here because the player was already resolved by token. -/
def queenDeploy (gs : GameState) (side : PSide) (tok : String) (seq : Nat) :
    GameState × List ServerOutput :=
  let player := gs.getPlayer side
  match chooseHealTarget player.towers with
  | none =>
    let gs2 := { gs with
      processedDeployCommands := recordProcessed gs.processedDeployCommands tok seq }
    (gs2, ServerOutput.queenHealEvent player.account.username none
            :: ackOutputs gs2.playerClientAddresses tok seq)
  | some target =>
    let healed := HealTower target 300
    let gs2 := gs.setPlayer side
      { player with towers := replaceFirst player.towers target healed }
    let gs3 := { gs2 with
      processedDeployCommands := recordProcessed gs2.processedDeployCommands tok seq }
    (gs3, ServerOutput.queenHealEvent player.account.username
            (some (target.gameSpecificID, healed.currentHP - target.currentHP,
                   healed.currentHP))
            :: ackOutputs gs3.playerClientAddresses tok seq)

/-- Non-queen branch of the deploy handler (mana already deducted): create
the level-scaled troop, add it to the owner's map and the centralized map,
emit the deployed event, record the command and ACK. -/
def normalDeploy (gs : GameState) (side : PSide) (now : Nat) (tok : String)
    (seq : Nat) (spec : TroopSpec) : GameState × List ServerOutput :=
  let player := gs.getPlayer side
  let instanceID := player.account.username ++ "_troop_" ++ toString now
  let troop : ActiveTroop := {
    instanceID := instanceID
    specID := spec.id
    ownerID := player.account.username
    currentHP := levelScaledStat spec.baseHP player.account.level
    maxHP := levelScaledStat spec.baseHP player.account.level
    currentATK := levelScaledStat spec.baseATK player.account.level
    currentDEF := levelScaledStat spec.baseDEF player.account.level
    deployedAt := now }
  let gs2 := gs.setPlayer side
    { player with deployedTroops := (instanceID, troop) :: player.deployedTroops }
  let gs3 := { gs2 with
    activeTroops := (instanceID, troop) :: gs2.activeTroops
    processedDeployCommands := recordProcessed gs2.processedDeployCommands tok seq }
  (gs3, ServerOutput.troopDeployedEvent player.account.username instanceID spec.id
          :: ackOutputs gs3.playerClientAddresses tok seq)

/-- The `UDPMsgTypeDeployTroop` case of `GameSession.handlePlayerAction`:
duplicate check, player resolution, spec lookup, mana check, mana
deduction, then the queen or the normal branch. -/
def deployTroopStep (gs : GameState) (now : Nat) (tok : String) (seq : Nat)
    (troopID : String) : GameState × List ServerOutput :=
  if (processedSeqs gs tok).contains seq then
    (gs, ackOutputs gs.playerClientAddresses tok seq)
  else
    match sideOfToken gs tok with
    | none => (gs, [])
    | some side =>
      let player := gs.getPlayer side
      match gs.config.troops.lookup troopID with
      | none =>
        (gs, eventToPlayer gs.playerClientAddresses player.sessionToken
               (ServerOutput.gameEventError player.sessionToken
                 ("Unknown troop type: " ++ troopID)))
      | some spec =>
        if player.currentMana < spec.manaCost then
          (gs, eventToPlayer gs.playerClientAddresses player.sessionToken
                 (ServerOutput.gameEventError player.sessionToken
                   ("Not enough mana for " ++ spec.name ++ ". Need "
                     ++ toString spec.manaCost ++ ", have "
                     ++ toString player.currentMana)))
        else
          let gs1 := gs.setPlayer side
            { player with currentMana := player.currentMana - spec.manaCost }
          if strLower spec.id = "queen" then queenDeploy gs1 side tok seq
          else normalDeploy gs1 side now tok seq spec

/-- `GameSession.handlePlayerAction`: session-id check, then dispatch on
the message type. -/
def handlePlayerAction (gs : GameState) (now : Nat) (msg : UDPMessage) :
    GameState × List ServerOutput :=
  if msg.sessionID ≠ gs.id then (gs, [])
  else
    match msg.action with
    | UDPAction.playerQuit =>
      if msg.playerToken = gs.player1.sessionToken then
        ({ gs with player1Quit := true }, [])
      else if msg.playerToken = gs.player2.sessionToken then
        ({ gs with player2Quit := true }, [])
      else (gs, [])
    | UDPAction.deployTroop troopID => deployTroopStep gs now msg.playerToken msg.seq troopID
    | UDPAction.otherAction => (gs, [])

/-- The mana-regeneration body of the tick loop:
`if player.CurrentMana < 10 { player.CurrentMana++ }`. -/
def regenPlayer (p : PlayerInGame) : PlayerInGame :=
  if p.currentMana < 10 then { p with currentMana := p.currentMana + 1 } else p

/-- One mana-regeneration tick (both players). -/
def manaRegenTick (gs : GameState) : GameState :=
  { gs with player1 := regenPlayer gs.player1, player2 := regenPlayer gs.player2 }

/-- The session-engine steps relevant to the mana invariant: a mana
regeneration tick, or handling one inbound UDP message at some time. -/
inductive SessionStep where
  | tickRegen
  | playerMessage (now : Nat) (msg : UDPMessage)
deriving DecidableEq, Repr

def stepSession (gs : GameState) : SessionStep → GameState
  | .tickRegen => manaRegenTick gs
  | .playerMessage now msg => (handlePlayerAction gs now msg).1

/-- Run a sequence of session steps. -/
def runSession (gs : GameState) (steps : List SessionStep) : GameState :=
  steps.foldl stepSession gs

/-! ## Session creation (`NewGameSession`, `session_manager.go`,
`matchmaking_tcp.go`) -/

/-- `strings.ToLower(strings.ReplaceAll(s, " ", "_"))`. -/
def lowerUnderscore (s : String) : String :=
  strLower (String.mk (s.toList.map (fun c => if c = ' ' then '_' else c)))

/-- `server.initializePlayerTowers`: one tower instance per configured
tower spec, stats scaled by the owner's level.  The list order of
`towerSpecs` stands for one possible Go map iteration order. -/
def setupPlayerTowers (towerSpecs : List (String × TowerSpec)) (username : String)
    (playerTag : String) (playerLevel : Int) : List TowerInstance :=
  towerSpecs.map (fun pr =>
    let specID := pr.1
    let spec := pr.2
    { specID := specID
      ownerID := username
      maxHP := levelScaledStat spec.baseHP playerLevel
      currentHP := levelScaledStat spec.baseHP playerLevel
      currentATK := levelScaledStat spec.baseATK playerLevel
      currentDEF := levelScaledStat spec.baseDEF playerLevel
      isDestroyed := false
      gameSpecificID :=
        if spec.name = "" then playerTag ++ "_" ++ lowerUnderscore specID
        else playerTag ++ "_" ++ lowerUnderscore spec.name })

/-- `server.NewGameSession` (state-construction part): both players start
with `CurrentMana: 5`, empty troop maps, towers from the config, and an
initialized processed-command table for both tokens. -/
def NewGameSessionState (id : String) (p1Acc p2Acc : PlayerAccount)
    (p1Token p2Token : String) (cfg : GameConfig) : GameState :=
  { id := id
    player1 := {
      account := p1Acc
      currentMana := 5
      towers := setupPlayerTowers cfg.towers p1Acc.username "player1" p1Acc.level
      deployedTroops := []
      sessionToken := p1Token }
    player2 := {
      account := p2Acc
      currentMana := 5
      towers := setupPlayerTowers cfg.towers p2Acc.username "player2" p2Acc.level
      deployedTroops := []
      sessionToken := p2Token }
    config := cfg
    activeTroops := []
    processedDeployCommands := [(p1Token, []), (p2Token, [])]
    playerClientAddresses := []
    player1Quit := false
    player2Quit := false }

/-- `GameSessionManager.CreateSession`: the per-player session tokens are
the player usernames (`p1Token := player1.Username` etc.). -/
def CreateSession (gameID : String) (player1 player2 : PlayerAccount)
    (cfg : GameConfig) : GameState :=
  NewGameSessionState gameID player1 player2 player1.username player2.username cfg

/-- `network.MatchFoundResponse`. -/
structure MatchFoundResponse where
  gameID : String
  opponent : PlayerAccount
  udpPort : Int
  isPlayerOne : Bool
  playerSessionToken : String
deriving DecidableEq, Repr

/-- `server.notifyMatch`: the response sent to `player` carries the full
opponent account and `PlayerSessionToken: player.Username`. -/
def notifyMatch (player opponent : PlayerAccount) (gameID : String)
    (udpPort : Int) (isPlayerOne : Bool) : MatchFoundResponse :=
  { gameID := gameID
    opponent := opponent
    udpPort := udpPort
    isPlayerOne := isPlayerOne
    playerSessionToken := player.username }

/-! ## Winner determination (`GameSession.determineWinnerAndStop`) -/

/-- Result record assembled by `determineWinnerAndStop`
(`GameEndReason`, per-player outcome strings, per-player EXP earned). -/
structure GameOutcome where
  reason : String
  result1 : String
  result2 : String
  p1Exp : Int
  p2Exp : Int
deriving DecidableEq, Repr

/-- `GameSession.isKingTower`: the tower's spec (by `SpecID`) has
`Name == "King Tower"`. -/
def isKingTowerIn (cfgTowers : List (String × TowerSpec)) (t : TowerInstance) : Bool :=
  match cfgTowers.lookup t.specID with
  | some spec => spec.name = "King Tower"
  | none => false

/-- The destroyed-tower counting loop of the `"timeout"` branch: returns
`(p1TowersDestroyed, p2TowersDestroyed)` — a destroyed tower owned by
player 1 counts for player 2 and vice versa. -/
def timeoutCounts (towers : List TowerInstance) (u1 u2 : String) : Nat × Nat :=
  towers.foldl (fun acc t =>
    if t.isDestroyed then
      if t.ownerID = u1 then (acc.1, acc.2 + 1)
      else if t.ownerID = u2 then (acc.1 + 1, acc.2)
      else acc
    else acc) (0, 0)

/-- The EXP-from-destroyed-towers loop of `determineWinnerAndStop`:
returns `(p1ExpEarned, p2ExpEarned)` before the win/draw bonus.  A tower
whose spec is missing from the config is skipped. -/
def expFromDestroyed (towers : List TowerInstance)
    (cfgTowers : List (String × TowerSpec)) (u1 u2 : String) : Int × Int :=
  towers.foldl (fun acc t =>
    if t.isDestroyed then
      match cfgTowers.lookup t.specID with
      | none => acc
      | some spec =>
        if t.ownerID = u1 then (acc.1, acc.2 + spec.expYield)
        else if t.ownerID = u2 then (acc.1 + spec.expYield, acc.2)
        else acc
    else acc) (0, 0)

/-- `GameSession.determineWinnerAndStop` (pure outcome computation): the
switch on `reason`, then the EXP calculation with the win (+30) and draw
(+10) bonuses. -/
def determineWinnerOutcome (reason : String) (towers : List TowerInstance)
    (cfgTowers : List (String × TowerSpec)) (u1 u2 : String)
    (p1Quit p2Quit : Bool) : GameOutcome :=
  let results : String × String :=
    if reason = "king_tower_destroyed" then
      let p1KingDestroyed := towers.any (fun t =>
        isKingTowerIn cfgTowers t && t.isDestroyed && decide (t.ownerID = u1))
      let p2KingDestroyed := towers.any (fun t =>
        isKingTowerIn cfgTowers t && t.isDestroyed && decide (t.ownerID ≠ u1)
          && decide (t.ownerID = u2))
      if p1KingDestroyed && !p2KingDestroyed then ("loss", "win")
      else if p2KingDestroyed && !p1KingDestroyed then ("win", "loss")
      else ("draw", "draw")
    else if reason = "timeout" then
      let c := timeoutCounts towers u1 u2
      if c.2 < c.1 then ("win", "loss")
      else if c.1 < c.2 then ("loss", "win")
      else ("draw", "draw")
    else if reason = "player_quit" then
      if p1Quit && !p2Quit then ("loss", "win")
      else if p2Quit && !p1Quit then ("win", "loss")
      else ("draw", "draw")
    else ("draw", "draw")
  let e := expFromDestroyed towers cfgTowers u1 u2
  let e1 := if results.1 = "win" then e.1 + 30
            else if results.1 = "draw" then e.1 + 10 else e.1
  let e2 := if results.2 = "win" then e.2 + 30
            else if results.2 = "draw" then e.2 + 10 else e.2
  { reason := reason
    result1 := results.1
    result2 := results.2
    p1Exp := e1
    p2Exp := e2 }

/-! ## Invariants and specification-side reformulations -/

/-- The mana invariant of the spec: both players' mana in `[0, 10]`. -/
def manaInv (gs : GameState) : Prop :=
  0 ≤ gs.player1.currentMana ∧ gs.player1.currentMana ≤ 10 ∧
  0 ≤ gs.player2.currentMana ∧ gs.player2.currentMana ≤ 10

/-- All configured troop mana costs are nonnegative (true of any real
config; the config file is external input). -/
def troopCostsNonneg (cfg : GameConfig) : Prop :=
  ∀ pr ∈ cfg.troops, 0 ≤ pr.2.manaCost

/-- Specification-side count: destroyed towers owned by `owner`. -/
def destroyedCountOwnedBy (towers : List TowerInstance) (owner : String) : Nat :=
  (towers.filter (fun t => t.isDestroyed && decide (t.ownerID = owner))).length

/-- Specification-side sum of the experience yields of the destroyed
towers owned by `owner` (a destroyed tower with no configured spec
contributes 0, as the code skips it). -/
def destroyedYieldOwnedBy (towers : List TowerInstance)
    (cfgTowers : List (String × TowerSpec)) (owner : String) : Int :=
  ((towers.filter (fun t => t.isDestroyed && decide (t.ownerID = owner))).map
    (fun t => ((cfgTowers.lookup t.specID).map TowerSpec.expYield).getD 0)).sum

/-! ## Concrete fixtures used by witnesses and counterexamples -/

def accAlice : PlayerAccount := { username := "alice", exp := 0, level := 1 }

def accBob : PlayerAccount := { username := "bob", exp := 0, level := 1 }

def pawnSpec : TroopSpec :=
  { id := "pawn", name := "Pawn", manaCost := 3, baseHP := 50, baseATK := 150,
    baseDEF := 100 }

def queenSpec : TroopSpec :=
  { id := "queen", name := "Queen", manaCost := 5, baseHP := 300, baseATK := 0,
    baseDEF := 150 }

def giantSpec : TroopSpec :=
  { id := "giant", name := "Giant", manaCost := 9, baseHP := 400, baseATK := 200,
    baseDEF := 300 }

def guard1TowerSpec : TowerSpec :=
  { id := "guard_tower_1", name := "Guard Tower", baseHP := 1000, baseATK := 300,
    baseDEF := 100, critChance := 1 / 10, expYield := 100 }

def guard2TowerSpec : TowerSpec :=
  { id := "guard_tower_2", name := "Guard Tower", baseHP := 1000, baseATK := 300,
    baseDEF := 100, critChance := 1 / 10, expYield := 100 }

def kingTowerSpec : TowerSpec :=
  { id := "king_tower", name := "King Tower", baseHP := 2000, baseATK := 500,
    baseDEF := 300, critChance := 1 / 10, expYield := 200 }

def fxConfig : GameConfig :=
  { towers := [("guard_tower_1", guard1TowerSpec), ("guard_tower_2", guard2TowerSpec),
               ("king_tower", kingTowerSpec)]
    troops := [("pawn", pawnSpec), ("queen", queenSpec), ("giant", giantSpec)] }

def fxBobGuard1 : TowerInstance :=
  { specID := "guard_tower_1", ownerID := "bob", currentHP := 800, maxHP := 1000,
    currentATK := 300, currentDEF := 100, isDestroyed := false,
    gameSpecificID := "player2_guard_tower" }

def fxBobKing : TowerInstance :=
  { specID := "king_tower", ownerID := "bob", currentHP := 500, maxHP := 2000,
    currentATK := 500, currentDEF := 300, isDestroyed := false,
    gameSpecificID := "player2_king_tower" }

def fxAliceGuard1 : TowerInstance :=
  { specID := "guard_tower_1", ownerID := "alice", currentHP := 400, maxHP := 1000,
    currentATK := 300, currentDEF := 100, isDestroyed := false,
    gameSpecificID := "player1_guard_tower" }

def fxAliceKing : TowerInstance :=
  { specID := "king_tower", ownerID := "alice", currentHP := 2000, maxHP := 2000,
    currentATK := 500, currentDEF := 300, isDestroyed := false,
    gameSpecificID := "player1_king_tower" }

def pAliceFx : PlayerInGame :=
  { account := accAlice, currentMana := 5, towers := [fxAliceKing, fxAliceGuard1],
    deployedTroops := [], sessionToken := "alice" }

def pBobFx : PlayerInGame :=
  { account := accBob, currentMana := 5, towers := [fxBobKing, fxBobGuard1],
    deployedTroops := [], sessionToken := "bob" }

/-- Session state used by the deploy-handler witnesses: both client
addresses known, nothing processed yet. -/
def fxState : GameState :=
  { id := "g1", player1 := pAliceFx, player2 := pBobFx, config := fxConfig,
    activeTroops := [], processedDeployCommands := [("alice", []), ("bob", [])],
    playerClientAddresses := [("alice", 1), ("bob", 2)],
    player1Quit := false, player2Quit := false }

/-- Session state with sequence number 7 of player `alice` already
processed (for the duplicate-command witness). -/
def dupState : GameState :=
  { fxState with processedDeployCommands := [("alice", [7]), ("bob", [])] }

def dupMsg : UDPMessage :=
  { seq := 7, sessionID := "g1", playerToken := "alice",
    action := UDPAction.deployTroop "pawn" }

/-- Two timestamp-tied live troops of `bob`; the one with the larger
instance id is listed first by the (arbitrary) map iteration order. -/
def troopTieBig : ActiveTroop :=
  { instanceID := "bob_troop_9", specID := "pawn", ownerID := "bob",
    currentHP := 50, maxHP := 50, currentATK := 150, currentDEF := 100,
    deployedAt := 5 }

def troopTieSmall : ActiveTroop :=
  { instanceID := "bob_troop_1", specID := "pawn", ownerID := "bob",
    currentHP := 50, maxHP := 50, currentATK := 150, currentDEF := 100,
    deployedAt := 5 }

def pBobTied : PlayerInGame :=
  { pBobFx with deployedTroops :=
      [("bob_troop_9", troopTieBig), ("bob_troop_1", troopTieSmall)] }

/-- Destroyed-tower fixtures for the timeout outcome: `alice` lost one
tower, `bob` lost two (so player 1 `alice` destroyed two). -/
def fxDestAliceG1 : TowerInstance :=
  { fxAliceGuard1 with currentHP := 0, isDestroyed := true }

def fxDestBobG1 : TowerInstance :=
  { fxBobGuard1 with currentHP := 0, isDestroyed := true }

def fxDestBobG2 : TowerInstance :=
  { specID := "guard_tower_2", ownerID := "bob", currentHP := 0, maxHP := 1000,
    currentATK := 300, currentDEF := 100, isDestroyed := true,
    gameSpecificID := "player2_guard_tower_2" }

def fxTimeoutTowers : List TowerInstance :=
  [fxAliceKing, fxDestAliceG1, fxBobKing, fxDestBobG1, fxDestBobG2]

/-! # Helper lemmas -/

theorem expNeededAfter_eq (n : Nat) : expNeededAfter n = 100 * (11 / 10) ^ n := by
  induction n with
  | zero => simp [expNeededAfter]
  | succ k ih => rw [expNeededAfter, ih, pow_succ, mul_assoc]

theorem expNeededAfter_ge_100 (n : Nat) : (100 : ℚ) ≤ expNeededAfter n := by
  induction n with
  | zero => simp [expNeededAfter]
  | succ k ih => rw [expNeededAfter]; nlinarith

theorem calculateExpForNextLevel_ge_100 (level : Int) :
    100 ≤ calculateExpForNextLevel level := by
  unfold calculateExpForNextLevel
  split
  · omega
  · exact Int.le_floor.mpr (by exact_mod_cast expNeededAfter_ge_100 _)

theorem tdiv_12_10_eq_floor (a : Int) (ha : 0 ≤ a) :
    Int.tdiv (12 * a) 10 = ⌊(a : ℚ) * (12 / 10)⌋ := by
  have h1 : ((a : ℚ) * (12 / 10)) = ((12 * a : Int) : ℚ) / ((10 : Nat) : ℚ) := by
    push_cast; ring
  rw [h1, Rat.floor_intCast_div_natCast,
    Int.tdiv_eq_ediv (by positivity) (by norm_num)]
  norm_num

theorem firstMinKey_cons_ne_none {α β : Type} [LinearOrder β] (key : α → β)
    (a : α) (as : List α) : firstMinKey key (a :: as) ≠ none := by
  cases h : firstMinKey key as with
  | none => simp [firstMinKey, h]
  | some u =>
    by_cases hle : key a ≤ key u <;> simp [firstMinKey, h, hle]

theorem firstMinKey_spec {α β : Type} [LinearOrder β] (key : α → β) :
    ∀ (l : List α) (r : α), firstMinKey key l = some r →
      r ∈ l ∧ ∀ x ∈ l, key r ≤ key x := by
  intro l
  induction l with
  | nil => intro r h; simp [firstMinKey] at h
  | cons t ts ih =>
    intro r h
    cases hts : firstMinKey key ts with
    | none =>
      simp only [firstMinKey, hts, Option.some.injEq] at h
      subst h
      have hts2 : ts = [] := by
        cases ts with
        | nil => rfl
        | cons a as => exact absurd hts (firstMinKey_cons_ne_none key a as)
      subst hts2
      exact ⟨List.mem_cons_self t [], by intro x hx; simp at hx; simp [hx]⟩
    | some u =>
      simp only [firstMinKey, hts] at h
      obtain ⟨hu_mem, hu_min⟩ := ih u hts
      by_cases hle : key t ≤ key u
      · rw [if_pos hle, Option.some.injEq] at h
        subst h
        refine ⟨List.mem_cons_self t ts, ?_⟩
        intro x hx
        rcases List.mem_cons.mp hx with hx | hx
        · simp [hx]
        · exact le_trans hle (hu_min x hx)
      · rw [if_neg hle, Option.some.injEq] at h
        subst h
        refine ⟨List.mem_cons_of_mem t hu_mem, ?_⟩
        intro x hx
        rcases List.mem_cons.mp hx with hx | hx
        · rw [hx]; exact le_of_not_le hle
        · exact hu_min x hx

theorem applyLevelUps_step (level e : Int) (h : calculateExpForNextLevel level ≤ e) :
    applyLevelUps level e =
      ((applyLevelUps (level + 1) (e - calculateExpForNextLevel level)).1,
       (applyLevelUps (level + 1) (e - calculateExpForNextLevel level)).2.1, true) := by
  rw [applyLevelUps]
  simp [h]

theorem applyLevelUps_stop (level e : Int) (h : ¬ calculateExpForNextLevel level ≤ e) :
    applyLevelUps level e = (level, e, false) := by
  rw [applyLevelUps]
  simp [h]

theorem applyLevelUps_decomp :
    ∀ level e : Int, 0 ≤ e →
      ∃ n : Nat, (applyLevelUps level e).1 = level + n ∧
        e = reqSum level n + (applyLevelUps level e).2.1 ∧
        0 ≤ (applyLevelUps level e).2.1 ∧
        (applyLevelUps level e).2.1
          < calculateExpForNextLevel (applyLevelUps level e).1 ∧
        ((applyLevelUps level e).2.2 = true ↔ n ≠ 0) := by
  intro level e
  induction level, e using applyLevelUps.induct with
  | case1 level e h ih =>
    intro _
    have hreq := calculateExpForNextLevel_ge_100 level
    obtain ⟨n, hn1, hn2, hn3, hn4, _⟩ := ih (by omega)
    rw [applyLevelUps_step level e h]
    refine ⟨n + 1, ?_, ?_, hn3, hn4, by simp⟩
    · show (applyLevelUps (level + 1) (e - calculateExpForNextLevel level)).1
        = level + (↑(n + 1) : Int)
      push_cast
      omega
    · show e = reqSum level (n + 1)
        + (applyLevelUps (level + 1) (e - calculateExpForNextLevel level)).2.1
      have hsum : reqSum level (n + 1)
          = calculateExpForNextLevel level + reqSum (level + 1) n := rfl
      omega
  | case2 level e h =>
    intro he
    rw [applyLevelUps_stop level e h]
    refine ⟨0, by simp, ?_, he, ?_, by simp⟩
    · show e = reqSum level 0 + e
      have hsum : reqSum level 0 = 0 := rfl
      omega
    · show e < calculateExpForNextLevel level
      omega

/-! # The claims -/

/-- C3: for ATK ≥ 0 and DEF ≥ 0, `CalculateDamage` is non-negative; when
no critical hit is rolled the result is `max 0 (ATK - DEF)`, and when one
is rolled it is `max 0 (⌊ATK * 1.2⌋ - DEF)`. -/
theorem calculateDamage_spec (atk dfn : Int) (hatk : 0 ≤ atk) (_hdef : 0 ≤ dfn)
    (isTowerAttack critRolled : Bool) :
    0 ≤ CalculateDamage atk dfn isTowerAttack critRolled ∧
    ((isTowerAttack && critRolled) = false →
      CalculateDamage atk dfn isTowerAttack critRolled = max 0 (atk - dfn)) ∧
    ((isTowerAttack && critRolled) = true →
      CalculateDamage atk dfn isTowerAttack critRolled
        = max 0 (⌊(atk : ℚ) * (12 / 10)⌋ - dfn)) := by
  refine ⟨?_, ?_, ?_⟩
  · simp only [CalculateDamage]
    split <;> split <;> omega
  · intro h
    simp only [CalculateDamage, h, Bool.false_eq_true, if_false]
    split <;> omega
  · intro h
    simp only [CalculateDamage, h, if_true]
    rw [← tdiv_12_10_eq_floor atk hatk]
    split <;> omega

/-- Witness for C3 at ATK = 50, DEF = 20 with a rolled critical hit. -/
theorem calculateDamage_spec_witness :
    0 ≤ CalculateDamage 50 20 true true ∧
    ((true && true) = false → CalculateDamage 50 20 true true = max 0 (50 - 20)) ∧
    ((true && true) = true →
      CalculateDamage 50 20 true true = max 0 (⌊(50 : ℚ) * (12 / 10)⌋ - 20)) :=
  calculateDamage_spec 50 20 (by norm_num) (by norm_num) true true

/-- C5: the EXP needed from level N to N+1 is `⌊100 * 1.1^(N-1)⌋` (100 for
level 1, 110 for level 2), and the level-up loop performs sequential
level-ups, consuming exactly each level's requirement and carrying the
remainder forward. -/
theorem expCurve_spec :
    (∀ N : Int, 1 ≤ N →
      calculateExpForNextLevel N = ⌊(100 : ℚ) * (11 / 10) ^ (N - 1).toNat⌋) ∧
    calculateExpForNextLevel 1 = 100 ∧
    calculateExpForNextLevel 2 = 110 ∧
    (∀ level e : Int, 0 ≤ e →
      ∃ n : Nat, (applyLevelUps level e).1 = level + n ∧
        e = reqSum level n + (applyLevelUps level e).2.1 ∧
        0 ≤ (applyLevelUps level e).2.1 ∧
        (applyLevelUps level e).2.1
          < calculateExpForNextLevel (applyLevelUps level e).1 ∧
        ((applyLevelUps level e).2.2 = true ↔ n ≠ 0)) := by
  refine ⟨?_, ?_, ?_, applyLevelUps_decomp⟩
  · intro N hN
    unfold calculateExpForNextLevel
    rw [if_neg (by omega), expNeededAfter_eq]
  · norm_num [calculateExpForNextLevel, expNeededAfter]
  · norm_num [calculateExpForNextLevel, expNeededAfter]

/-- Witness for C5: level 3 requirement and a double level-up from 250 EXP
at level 1 (100 consumed to level 2, 110 to level 3, remainder 40). -/
theorem expCurve_spec_witness :
    calculateExpForNextLevel 3 = ⌊(100 : ℚ) * (11 / 10) ^ ((3 : Int) - 1).toNat⌋ ∧
    (∃ n : Nat, (applyLevelUps 1 250).1 = 1 + n ∧
      (250 : Int) = reqSum 1 n + (applyLevelUps 1 250).2.1 ∧
      0 ≤ (applyLevelUps 1 250).2.1 ∧
      (applyLevelUps 1 250).2.1 < calculateExpForNextLevel (applyLevelUps 1 250).1 ∧
      ((applyLevelUps 1 250).2.2 = true ↔ n ≠ 0)) :=
  ⟨expCurve_spec.1 3 (by norm_num), expCurve_spec.2.2.2 1 250 (by norm_num)⟩

theorem validTargets_gate (ts : List TowerInstance) (g : TowerInstance)
    (hfind : ts.find? (fun t => containsGT1 t.specID) = some g)
    (hg : 0 < g.currentHP) : validTargets ts = [g] := by
  simp only [validTargets, hfind]
  rw [if_pos hg]

theorem validTargets_destroyed (ts : List TowerInstance)
    (hdes : ∀ g, ts.find? (fun t => containsGT1 t.specID) = some g →
      g.currentHP ≤ 0) :
    validTargets ts = ts.filter (fun t => 0 < t.currentHP) := by
  cases hf : ts.find? (fun t => containsGT1 t.specID) with
  | none => simp only [validTargets, hf]
  | some g =>
    simp only [validTargets, hf]
    rw [if_neg (not_lt.mpr (hdes g hf))]

/-- C4: while the opponent's first guard tower (the first tower whose spec
id contains "guard_tower_1") has HP > 0, it is the chosen target — never
the king tower or the second guard tower; once it is destroyed, the chosen
target is a lowest-current-HP tower among the opponent's HP > 0 towers. -/
theorem findLowestHPTower_spec (attackingPlayerID : String) (p1 p2 : PlayerInGame) :
    (∀ g : TowerInstance,
      (opponentOf attackingPlayerID p1 p2).towers.find?
          (fun t => containsGT1 t.specID) = some g →
      0 < g.currentHP →
      FindLowestHPTower attackingPlayerID p1 p2 = some g) ∧
    ((∀ g : TowerInstance,
        (opponentOf attackingPlayerID p1 p2).towers.find?
            (fun t => containsGT1 t.specID) = some g →
        g.currentHP ≤ 0) →
      ∀ r : TowerInstance, FindLowestHPTower attackingPlayerID p1 p2 = some r →
        r ∈ (opponentOf attackingPlayerID p1 p2).towers ∧ 0 < r.currentHP ∧
        ∀ t ∈ (opponentOf attackingPlayerID p1 p2).towers,
          0 < t.currentHP → r.currentHP ≤ t.currentHP) := by
  constructor
  · intro g hfind hg
    have hmem := List.mem_of_find?_eq_some hfind
    have hne : (opponentOf attackingPlayerID p1 p2).towers.isEmpty = false := by
      cases h : (opponentOf attackingPlayerID p1 p2).towers with
      | nil => rw [h] at hmem; simp at hmem
      | cons a as => rfl
    simp only [FindLowestHPTower, hne, Bool.false_eq_true, if_false,
      validTargets_gate _ g hfind hg, firstMinHP, firstMinKey]
  · intro hdes r hres
    have hvt := validTargets_destroyed
      (opponentOf attackingPlayerID p1 p2).towers hdes
    simp only [FindLowestHPTower] at hres
    by_cases hemp : (opponentOf attackingPlayerID p1 p2).towers.isEmpty = true
    · rw [if_pos hemp] at hres; simp at hres
    · rw [if_neg hemp, hvt] at hres
      simp only [firstMinHP] at hres
      obtain ⟨hmemf, hminf⟩ := firstMinKey_spec _ _ r hres
      rw [List.mem_filter] at hmemf
      obtain ⟨hmem, hhp⟩ := hmemf
      refine ⟨hmem, by simpa using hhp, ?_⟩
      intro t htmem thp
      exact hminf t (List.mem_filter.mpr ⟨htmem, by simpa using thp⟩)

/-- Witness for C4: `bob`'s first guard tower (HP 800) is chosen over his
king tower even though the king tower's HP (500) is lower. -/
theorem findLowestHPTower_spec_witness :
    FindLowestHPTower "alice" pAliceFx pBobFx = some fxBobGuard1 ∧
    fxBobGuard1.currentHP = 800 ∧ fxBobKing.currentHP = 500 :=
  ⟨(findLowestHPTower_spec "alice" pAliceFx pBobFx).1 fxBobGuard1
      (by decide) (by decide),
   rfl, rfl⟩

/-- C9 (amended): the troop chosen for a tower to attack is a live troop
of the opponent with the earliest deployment timestamp; timestamp ties are
broken by the (arbitrary) iteration/sort order, not by instance id. -/
theorem findTroopToAttack_oldest (towerOwnerID : String) (p1 p2 : PlayerInGame)
    (r : ActiveTroop)
    (hres : FindTroopToAttack towerOwnerID p1 p2 = some r) :
    r ∈ (opponentOf towerOwnerID p1 p2).deployedTroops.map (fun pr => pr.2) ∧
    0 < r.currentHP ∧
    ∀ t ∈ (opponentOf towerOwnerID p1 p2).deployedTroops.map (fun pr => pr.2),
      0 < t.currentHP → r.deployedAt ≤ t.deployedAt := by
  simp only [FindTroopToAttack] at hres
  by_cases hemp : (opponentOf towerOwnerID p1 p2).deployedTroops.isEmpty = true
  · rw [if_pos hemp] at hres; simp at hres
  · rw [if_neg hemp] at hres
    by_cases hemp2 : (((opponentOf towerOwnerID p1 p2).deployedTroops.map
        (fun pr => pr.2)).filter (fun tr => 0 < tr.currentHP)).isEmpty = true
    · rw [if_pos hemp2] at hres; simp at hres
    · rw [if_neg hemp2] at hres
      simp only [firstOldest] at hres
      obtain ⟨hmemf, hminf⟩ := firstMinKey_spec _ _ r hres
      rw [List.mem_filter] at hmemf
      obtain ⟨hmem, hhp⟩ := hmemf
      refine ⟨hmem, by simpa using hhp, ?_⟩
      intro t htmem thp
      exact hminf t (List.mem_filter.mpr ⟨htmem, by simpa using thp⟩)

/-- Witness for the amended C9 at the tied fixture. -/
theorem findTroopToAttack_oldest_witness :
    troopTieBig ∈ (opponentOf "alice" pAliceFx pBobTied).deployedTroops.map
      (fun pr => pr.2) ∧
    0 < troopTieBig.currentHP ∧
    ∀ t ∈ (opponentOf "alice" pAliceFx pBobTied).deployedTroops.map
        (fun pr => pr.2),
      0 < t.currentHP → troopTieBig.deployedAt ≤ t.deployedAt :=
  findTroopToAttack_oldest "alice" pAliceFx pBobTied troopTieBig (by decide)

/-- C9 counterexample: with two live troops both deployed at time 5, the
code returns the first-listed one, `bob_troop_9`, although `bob_troop_1`
is a live tied troop with the (strictly) smaller instance id — so the
claimed tie-break by instance id does not hold. -/
theorem findTroopToAttack_tiebreak_cex :
    FindTroopToAttack "alice" pAliceFx pBobTied = some troopTieBig ∧
    troopTieSmall ∈ (opponentOf "alice" pAliceFx pBobTied).deployedTroops.map
      (fun pr => pr.2) ∧
    0 < troopTieSmall.currentHP ∧
    troopTieSmall.deployedAt = troopTieBig.deployedAt ∧
    troopTieSmall.instanceID.data < troopTieBig.instanceID.data ∧
    troopTieSmall ≠ troopTieBig := by
  refine ⟨by decide, by decide, by decide, by decide, by decide, by decide⟩

/-- C10: the session token authenticating a player's UDP messages is
exactly the player's username — the same public value delivered to the
opponent (inside the account snapshot) in the match-found notification —
and `sideOfToken` authenticates by that username-token. -/
theorem sessionToken_is_username (gameID : String) (a1 a2 : PlayerAccount)
    (cfg : GameConfig) (udpPort : Int) :
    (CreateSession gameID a1 a2 cfg).player1.sessionToken = a1.username ∧
    (CreateSession gameID a1 a2 cfg).player2.sessionToken = a2.username ∧
    (notifyMatch a1 a2 gameID udpPort true).playerSessionToken = a1.username ∧
    (notifyMatch a2 a1 gameID udpPort false).opponent.username = a1.username ∧
    sideOfToken (CreateSession gameID a1 a2 cfg) a1.username = some PSide.one := by
  refine ⟨rfl, rfl, rfl, rfl, ?_⟩
  simp [sideOfToken, CreateSession, NewGameSessionState]

theorem destroyedCountOwnedBy_cons (t : TowerInstance) (ts : List TowerInstance)
    (owner : String) :
    destroyedCountOwnedBy (t :: ts) owner
      = (if t.isDestroyed = true ∧ t.ownerID = owner then 1 else 0)
        + destroyedCountOwnedBy ts owner := by
  simp only [destroyedCountOwnedBy, List.filter_cons]
  by_cases h1 : t.isDestroyed = true <;> by_cases h2 : t.ownerID = owner <;>
    simp [h1, h2, Nat.add_comm]

theorem destroyedYieldOwnedBy_cons (t : TowerInstance) (ts : List TowerInstance)
    (cfgTowers : List (String × TowerSpec)) (owner : String) :
    destroyedYieldOwnedBy (t :: ts) cfgTowers owner
      = (if t.isDestroyed = true ∧ t.ownerID = owner
          then ((cfgTowers.lookup t.specID).map TowerSpec.expYield).getD 0 else 0)
        + destroyedYieldOwnedBy ts cfgTowers owner := by
  simp only [destroyedYieldOwnedBy, List.filter_cons]
  by_cases h1 : t.isDestroyed = true <;> by_cases h2 : t.ownerID = owner <;>
    simp [h1, h2]

theorem timeoutCounts_eq (towers : List TowerInstance) (u1 u2 : String)
    (hne : u1 ≠ u2) :
    timeoutCounts towers u1 u2
      = (destroyedCountOwnedBy towers u2, destroyedCountOwnedBy towers u1) := by
  have aux : ∀ (ts : List TowerInstance) (acc : Nat × Nat),
      ts.foldl (fun acc t =>
        if t.isDestroyed then
          if t.ownerID = u1 then (acc.1, acc.2 + 1)
          else if t.ownerID = u2 then (acc.1 + 1, acc.2)
          else acc
        else acc) acc
      = (acc.1 + destroyedCountOwnedBy ts u2, acc.2 + destroyedCountOwnedBy ts u1) := by
    intro ts
    induction ts with
    | nil => intro acc; simp [destroyedCountOwnedBy]
    | cons t ts ih =>
      intro acc
      rw [List.foldl_cons, ih, destroyedCountOwnedBy_cons,
        destroyedCountOwnedBy_cons]
      by_cases hd : t.isDestroyed = true <;>
        by_cases h1 : t.ownerID = u1 <;> by_cases h2 : t.ownerID = u2
      all_goals try exact absurd (h1.symm.trans h2) hne
      all_goals simp [hd, h1, h2, hne, Ne.symm hne] <;> omega
  rw [timeoutCounts, aux towers (0, 0)]
  simp

theorem expFromDestroyed_eq (towers : List TowerInstance)
    (cfgTowers : List (String × TowerSpec)) (u1 u2 : String)
    (hne : u1 ≠ u2) :
    expFromDestroyed towers cfgTowers u1 u2
      = (destroyedYieldOwnedBy towers cfgTowers u2,
         destroyedYieldOwnedBy towers cfgTowers u1) := by
  have aux : ∀ (ts : List TowerInstance) (acc : Int × Int),
      ts.foldl (fun acc t =>
        if t.isDestroyed then
          match cfgTowers.lookup t.specID with
          | none => acc
          | some spec =>
            if t.ownerID = u1 then (acc.1, acc.2 + spec.expYield)
            else if t.ownerID = u2 then (acc.1 + spec.expYield, acc.2)
            else acc
        else acc) acc
      = (acc.1 + destroyedYieldOwnedBy ts cfgTowers u2,
         acc.2 + destroyedYieldOwnedBy ts cfgTowers u1) := by
    intro ts
    induction ts with
    | nil => intro acc; simp [destroyedYieldOwnedBy]
    | cons t ts ih =>
      intro acc
      rw [List.foldl_cons, ih, destroyedYieldOwnedBy_cons,
        destroyedYieldOwnedBy_cons]
      cases hl : cfgTowers.lookup t.specID with
      | none =>
        by_cases hd : t.isDestroyed = true <;> simp [hd, hl]
      | some spec =>
        by_cases hd : t.isDestroyed = true <;>
          by_cases h1 : t.ownerID = u1 <;> by_cases h2 : t.ownerID = u2
        all_goals try exact absurd (h1.symm.trans h2) hne
        all_goals simp [hd, h1, h2, hl, hne, Ne.symm hne] <;> ring
  rw [expFromDestroyed, aux towers (0, 0)]
  simp

/-- C8: on a timeout the outcome reason is "timeout"; the player who
destroyed strictly more opponent towers gets "win" (the other "loss",
equal counts give both "draw"), and the winner's EXP is the sum of the
yields of the towers they destroyed plus the 30-EXP win bonus, while the
loser gets only the yield sum with no bonus. -/
theorem timeout_outcome_spec (towers : List TowerInstance)
    (cfgTowers : List (String × TowerSpec)) (u1 u2 : String) (q1 q2 : Bool)
    (hne : u1 ≠ u2) :
    (determineWinnerOutcome "timeout" towers cfgTowers u1 u2 q1 q2).reason
      = "timeout" ∧
    (destroyedCountOwnedBy towers u1 < destroyedCountOwnedBy towers u2 →
      (determineWinnerOutcome "timeout" towers cfgTowers u1 u2 q1 q2).result1
          = "win" ∧
      (determineWinnerOutcome "timeout" towers cfgTowers u1 u2 q1 q2).result2
          = "loss" ∧
      (determineWinnerOutcome "timeout" towers cfgTowers u1 u2 q1 q2).p1Exp
          = destroyedYieldOwnedBy towers cfgTowers u2 + 30 ∧
      (determineWinnerOutcome "timeout" towers cfgTowers u1 u2 q1 q2).p2Exp
          = destroyedYieldOwnedBy towers cfgTowers u1) ∧
    (destroyedCountOwnedBy towers u2 < destroyedCountOwnedBy towers u1 →
      (determineWinnerOutcome "timeout" towers cfgTowers u1 u2 q1 q2).result1
          = "loss" ∧
      (determineWinnerOutcome "timeout" towers cfgTowers u1 u2 q1 q2).result2
          = "win" ∧
      (determineWinnerOutcome "timeout" towers cfgTowers u1 u2 q1 q2).p1Exp
          = destroyedYieldOwnedBy towers cfgTowers u2 ∧
      (determineWinnerOutcome "timeout" towers cfgTowers u1 u2 q1 q2).p2Exp
          = destroyedYieldOwnedBy towers cfgTowers u1 + 30) ∧
    (destroyedCountOwnedBy towers u1 = destroyedCountOwnedBy towers u2 →
      (determineWinnerOutcome "timeout" towers cfgTowers u1 u2 q1 q2).result1
          = "draw" ∧
      (determineWinnerOutcome "timeout" towers cfgTowers u1 u2 q1 q2).result2
          = "draw") := by
  have hc := timeoutCounts_eq towers u1 u2 hne
  have he := expFromDestroyed_eq towers cfgTowers u1 u2 hne
  refine ⟨rfl, ?_, ?_, ?_⟩
  · intro h
    simp [determineWinnerOutcome, hc, he, h, Nat.not_lt.mpr (le_of_lt h)]
  · intro h
    simp [determineWinnerOutcome, hc, he, h, Nat.not_lt.mpr (le_of_lt h)]
  · intro h
    simp [determineWinnerOutcome, hc, he, h]

/-- Witness for C8: at the fixture, `alice` destroyed two of `bob`'s
towers and `bob` destroyed one of `alice`'s, so `alice` wins with
100 + 100 destroyed-tower EXP plus the 30 bonus. -/
theorem timeout_outcome_spec_witness :
    (determineWinnerOutcome "timeout" fxTimeoutTowers fxConfig.towers
        "alice" "bob" false false).result1 = "win" ∧
    (determineWinnerOutcome "timeout" fxTimeoutTowers fxConfig.towers
        "alice" "bob" false false).p1Exp
      = destroyedYieldOwnedBy fxTimeoutTowers fxConfig.towers "bob" + 30 ∧
    (determineWinnerOutcome "timeout" fxTimeoutTowers fxConfig.towers
        "alice" "bob" false false).p2Exp
      = destroyedYieldOwnedBy fxTimeoutTowers fxConfig.towers "alice" ∧
    destroyedYieldOwnedBy fxTimeoutTowers fxConfig.towers "bob" = 200 := by
  have h := timeout_outcome_spec fxTimeoutTowers fxConfig.towers
    "alice" "bob" false false (by decide)
  have h2 := h.2.1 (by decide)
  exact ⟨h2.1, h2.2.2.1, h2.2.2.2, by decide⟩

theorem lookup_cost_nonneg (l : List (String × TroopSpec)) (k : String)
    (spec : TroopSpec) (hall : ∀ pr ∈ l, 0 ≤ pr.2.manaCost)
    (hlk : l.lookup k = some spec) : 0 ≤ spec.manaCost := by
  induction l with
  | nil => simp [List.lookup] at hlk
  | cons p ps ih =>
    obtain ⟨k0, v0⟩ := p
    rw [List.lookup] at hlk
    split at hlk
    · cases hlk
      exact hall (k0, spec) (List.mem_cons_self _ _)
    · exact ih (fun pr hpr => hall pr (List.mem_cons_of_mem _ hpr)) hlk

theorem manaInv_getPlayer (gs : GameState) (side : PSide) (hinv : manaInv gs) :
    0 ≤ (gs.getPlayer side).currentMana ∧ (gs.getPlayer side).currentMana ≤ 10 := by
  obtain ⟨h1, h2, h3, h4⟩ := hinv
  cases side
  · exact ⟨h1, h2⟩
  · exact ⟨h3, h4⟩

theorem setPlayer_manaInv (gs : GameState) (side : PSide) (p : PlayerInGame)
    (h1 : 0 ≤ p.currentMana) (h2 : p.currentMana ≤ 10) (hinv : manaInv gs) :
    manaInv (gs.setPlayer side p) := by
  obtain ⟨g1, g2, g3, g4⟩ := hinv
  cases side
  · exact ⟨h1, h2, g3, g4⟩
  · exact ⟨g1, g2, h1, h2⟩

theorem manaInv_of_players_eq (gs gsNew : GameState)
    (h1 : gsNew.player1.currentMana = gs.player1.currentMana)
    (h2 : gsNew.player2.currentMana = gs.player2.currentMana)
    (hinv : manaInv gs) : manaInv gsNew := by
  unfold manaInv at hinv ⊢
  rw [h1, h2]
  exact hinv

theorem sideOfToken_token (gs : GameState) (tok : String) (side : PSide)
    (h : sideOfToken gs tok = some side) :
    (gs.getPlayer side).sessionToken = tok := by
  unfold sideOfToken at h
  by_cases h1 : tok = gs.player1.sessionToken
  · rw [if_pos h1] at h
    cases h
    simp [GameState.getPlayer, h1]
  · rw [if_neg h1] at h
    by_cases h2 : tok = gs.player2.sessionToken
    · rw [if_pos h2] at h
      cases h
      simp [GameState.getPlayer, h2]
    · rw [if_neg h2] at h
      cases h

theorem deployTroopStep_dup (gs : GameState) (now : Nat) (tok : String)
    (seq : Nat) (troopID : String)
    (h : (processedSeqs gs tok).contains seq = true) :
    deployTroopStep gs now tok seq troopID
      = (gs, ackOutputs gs.playerClientAddresses tok seq) := by
  unfold deployTroopStep
  rw [if_pos h]

theorem deployTroopStep_noSide (gs : GameState) (now : Nat) (tok : String)
    (seq : Nat) (troopID : String)
    (h1 : (processedSeqs gs tok).contains seq = false)
    (h2 : sideOfToken gs tok = none) :
    deployTroopStep gs now tok seq troopID = (gs, []) := by
  unfold deployTroopStep
  rw [if_neg (by rw [h1]; simp)]
  simp only [h2]

theorem deployTroopStep_unknown (gs : GameState) (now : Nat) (tok : String)
    (seq : Nat) (troopID : String) (side : PSide)
    (h1 : (processedSeqs gs tok).contains seq = false)
    (h2 : sideOfToken gs tok = some side)
    (h3 : gs.config.troops.lookup troopID = none) :
    deployTroopStep gs now tok seq troopID
      = (gs, eventToPlayer gs.playerClientAddresses
          (gs.getPlayer side).sessionToken
          (ServerOutput.gameEventError (gs.getPlayer side).sessionToken
            ("Unknown troop type: " ++ troopID))) := by
  unfold deployTroopStep
  rw [if_neg (by rw [h1]; simp)]
  simp only [h2, h3]

theorem deployTroopStep_insufficient (gs : GameState) (now : Nat) (tok : String)
    (seq : Nat) (troopID : String) (side : PSide) (spec : TroopSpec)
    (h1 : (processedSeqs gs tok).contains seq = false)
    (h2 : sideOfToken gs tok = some side)
    (h3 : gs.config.troops.lookup troopID = some spec)
    (h4 : (gs.getPlayer side).currentMana < spec.manaCost) :
    deployTroopStep gs now tok seq troopID
      = (gs, eventToPlayer gs.playerClientAddresses
          (gs.getPlayer side).sessionToken
          (ServerOutput.gameEventError (gs.getPlayer side).sessionToken
            ("Not enough mana for " ++ spec.name ++ ". Need "
              ++ toString spec.manaCost ++ ", have "
              ++ toString (gs.getPlayer side).currentMana))) := by
  unfold deployTroopStep
  rw [if_neg (by rw [h1]; simp)]
  simp only [h2, h3]
  rw [if_pos h4]

theorem deployTroopStep_queen (gs : GameState) (now : Nat) (tok : String)
    (seq : Nat) (troopID : String) (side : PSide) (spec : TroopSpec)
    (h1 : (processedSeqs gs tok).contains seq = false)
    (h2 : sideOfToken gs tok = some side)
    (h3 : gs.config.troops.lookup troopID = some spec)
    (h4 : ¬ (gs.getPlayer side).currentMana < spec.manaCost)
    (h5 : strLower spec.id = "queen") :
    deployTroopStep gs now tok seq troopID
      = queenDeploy (gs.setPlayer side
          { gs.getPlayer side with
            currentMana := (gs.getPlayer side).currentMana - spec.manaCost })
          side tok seq := by
  unfold deployTroopStep
  rw [if_neg (by rw [h1]; simp)]
  simp only [h2, h3]
  rw [if_neg h4, if_pos h5]

theorem deployTroopStep_normal (gs : GameState) (now : Nat) (tok : String)
    (seq : Nat) (troopID : String) (side : PSide) (spec : TroopSpec)
    (h1 : (processedSeqs gs tok).contains seq = false)
    (h2 : sideOfToken gs tok = some side)
    (h3 : gs.config.troops.lookup troopID = some spec)
    (h4 : ¬ (gs.getPlayer side).currentMana < spec.manaCost)
    (h5 : ¬ strLower spec.id = "queen") :
    deployTroopStep gs now tok seq troopID
      = normalDeploy (gs.setPlayer side
          { gs.getPlayer side with
            currentMana := (gs.getPlayer side).currentMana - spec.manaCost })
          side now tok seq spec := by
  unfold deployTroopStep
  rw [if_neg (by rw [h1]; simp)]
  simp only [h2, h3]
  rw [if_neg h4, if_neg h5]

theorem queenDeploy_players (gs : GameState) (side : PSide) (tok : String)
    (seq : Nat) :
    (queenDeploy gs side tok seq).1.player1.currentMana = gs.player1.currentMana ∧
    (queenDeploy gs side tok seq).1.player2.currentMana = gs.player2.currentMana ∧
    (queenDeploy gs side tok seq).1.config = gs.config := by
  cases side
  · cases h : chooseHealTarget gs.player1.towers <;>
      simp [queenDeploy, GameState.getPlayer, GameState.setPlayer, h]
  · cases h : chooseHealTarget gs.player2.towers <;>
      simp [queenDeploy, GameState.getPlayer, GameState.setPlayer, h]

theorem normalDeploy_players (gs : GameState) (side : PSide) (now : Nat)
    (tok : String) (seq : Nat) (spec : TroopSpec) :
    (normalDeploy gs side now tok seq spec).1.player1.currentMana
        = gs.player1.currentMana ∧
    (normalDeploy gs side now tok seq spec).1.player2.currentMana
        = gs.player2.currentMana ∧
    (normalDeploy gs side now tok seq spec).1.config = gs.config := by
  cases side <;>
    simp [normalDeploy, GameState.getPlayer, GameState.setPlayer]

theorem deployTroopStep_manaInv (gs : GameState) (now : Nat) (tok : String)
    (seq : Nat) (troopID : String)
    (hcfg : troopCostsNonneg gs.config) (hinv : manaInv gs) :
    manaInv (deployTroopStep gs now tok seq troopID).1 ∧
    (deployTroopStep gs now tok seq troopID).1.config = gs.config := by
  by_cases hdup : (processedSeqs gs tok).contains seq = true
  · rw [deployTroopStep_dup gs now tok seq troopID hdup]
    exact ⟨hinv, rfl⟩
  · have hdup2 : (processedSeqs gs tok).contains seq = false := by
      simpa using hdup
    cases hside : sideOfToken gs tok with
    | none =>
      rw [deployTroopStep_noSide gs now tok seq troopID hdup2 hside]
      exact ⟨hinv, rfl⟩
    | some side =>
      cases hlk : gs.config.troops.lookup troopID with
      | none =>
        rw [deployTroopStep_unknown gs now tok seq troopID side hdup2 hside hlk]
        exact ⟨hinv, rfl⟩
      | some spec =>
        by_cases hm : (gs.getPlayer side).currentMana < spec.manaCost
        · rw [deployTroopStep_insufficient gs now tok seq troopID side spec
            hdup2 hside hlk hm]
          exact ⟨hinv, rfl⟩
        · have hcost := lookup_cost_nonneg gs.config.troops troopID spec hcfg hlk
          obtain ⟨hlo, hhi⟩ := manaInv_getPlayer gs side hinv
          have hinv1 : manaInv (gs.setPlayer side
              { gs.getPlayer side with
                currentMana := (gs.getPlayer side).currentMana - spec.manaCost }) := by
            apply setPlayer_manaInv gs side _ ?_ ?_ hinv
            · show 0 ≤ (gs.getPlayer side).currentMana - spec.manaCost
              omega
            · show (gs.getPlayer side).currentMana - spec.manaCost ≤ 10
              omega
          by_cases hq : strLower spec.id = "queen"
          · rw [deployTroopStep_queen gs now tok seq troopID side spec
              hdup2 hside hlk hm hq]
            obtain ⟨q1, q2, q3⟩ := queenDeploy_players (gs.setPlayer side
              { gs.getPlayer side with
                currentMana := (gs.getPlayer side).currentMana - spec.manaCost })
              side tok seq
            refine ⟨manaInv_of_players_eq _ _ q1 q2 hinv1, ?_⟩
            rw [q3]
            cases side <;> rfl
          · rw [deployTroopStep_normal gs now tok seq troopID side spec
              hdup2 hside hlk hm hq]
            obtain ⟨q1, q2, q3⟩ := normalDeploy_players (gs.setPlayer side
              { gs.getPlayer side with
                currentMana := (gs.getPlayer side).currentMana - spec.manaCost })
              side now tok seq spec
            refine ⟨manaInv_of_players_eq _ _ q1 q2 hinv1, ?_⟩
            rw [q3]
            cases side <;> rfl

theorem regenPlayer_mana (p : PlayerInGame) (h1 : 0 ≤ p.currentMana)
    (h2 : p.currentMana ≤ 10) :
    0 ≤ (regenPlayer p).currentMana ∧ (regenPlayer p).currentMana ≤ 10 := by
  unfold regenPlayer
  split
  · constructor
    · show 0 ≤ p.currentMana + 1
      omega
    · show p.currentMana + 1 ≤ 10
      omega
  · exact ⟨h1, h2⟩

theorem handlePlayerAction_manaInv (gs : GameState) (now : Nat)
    (msg : UDPMessage) (hcfg : troopCostsNonneg gs.config) (hinv : manaInv gs) :
    manaInv (handlePlayerAction gs now msg).1 ∧
    (handlePlayerAction gs now msg).1.config = gs.config := by
  unfold handlePlayerAction
  split
  · exact ⟨hinv, rfl⟩
  · cases msg.action with
    | playerQuit =>
      by_cases h1 : msg.playerToken = gs.player1.sessionToken
      · rw [if_pos h1]
        exact ⟨hinv, rfl⟩
      · rw [if_neg h1]
        by_cases h2 : msg.playerToken = gs.player2.sessionToken
        · rw [if_pos h2]
          exact ⟨hinv, rfl⟩
        · rw [if_neg h2]
          exact ⟨hinv, rfl⟩
    | deployTroop troopID =>
      exact deployTroopStep_manaInv gs now msg.playerToken msg.seq troopID hcfg hinv
    | otherAction => exact ⟨hinv, rfl⟩

theorem stepSession_manaInv (gs : GameState) (st : SessionStep)
    (hcfg : troopCostsNonneg gs.config) (hinv : manaInv gs) :
    manaInv (stepSession gs st) ∧ (stepSession gs st).config = gs.config := by
  cases st with
  | tickRegen =>
    obtain ⟨h1, h2, h3, h4⟩ := hinv
    obtain ⟨r1, r2⟩ := regenPlayer_mana gs.player1 h1 h2
    obtain ⟨r3, r4⟩ := regenPlayer_mana gs.player2 h3 h4
    exact ⟨⟨r1, r2, r3, r4⟩, rfl⟩
  | playerMessage now msg => exact handlePlayerAction_manaInv gs now msg hcfg hinv

theorem runSession_manaInv :
    ∀ (steps : List SessionStep) (gs : GameState),
      troopCostsNonneg gs.config → manaInv gs → manaInv (runSession gs steps) := by
  intro steps
  induction steps with
  | nil => intro gs _ hinv; exact hinv
  | cons st sts ih =>
    intro gs hcfg hinv
    have h := stepSession_manaInv gs st hcfg hinv
    exact ih (stepSession gs st) (h.2.symm ▸ hcfg) h.1

/-- C1: starting from session creation (both players at 5 mana), after any
sequence of mana-regeneration ticks and inbound messages (deploy-troop
commands included), both players' mana stays in [0, 10] — given that the
configured troop mana costs are nonnegative. -/
theorem session_mana_bounds (gameID : String) (a1 a2 : PlayerAccount)
    (cfg : GameConfig) (steps : List SessionStep)
    (hcfg : troopCostsNonneg cfg) :
    0 ≤ (runSession (CreateSession gameID a1 a2 cfg) steps).player1.currentMana ∧
    (runSession (CreateSession gameID a1 a2 cfg) steps).player1.currentMana ≤ 10 ∧
    0 ≤ (runSession (CreateSession gameID a1 a2 cfg) steps).player2.currentMana ∧
    (runSession (CreateSession gameID a1 a2 cfg) steps).player2.currentMana ≤ 10 :=
  runSession_manaInv steps (CreateSession gameID a1 a2 cfg) hcfg
    (by constructor <;> simp [CreateSession, NewGameSessionState])

/-- Witness for C1: a regeneration tick followed by a deploy command on
the concrete fixture configuration. -/
theorem session_mana_bounds_witness :
    0 ≤ (runSession (CreateSession "g1" accAlice accBob fxConfig)
          [SessionStep.tickRegen,
           SessionStep.playerMessage 5 dupMsg]).player1.currentMana ∧
    (runSession (CreateSession "g1" accAlice accBob fxConfig)
          [SessionStep.tickRegen,
           SessionStep.playerMessage 5 dupMsg]).player1.currentMana ≤ 10 ∧
    0 ≤ (runSession (CreateSession "g1" accAlice accBob fxConfig)
          [SessionStep.tickRegen,
           SessionStep.playerMessage 5 dupMsg]).player2.currentMana ∧
    (runSession (CreateSession "g1" accAlice accBob fxConfig)
          [SessionStep.tickRegen,
           SessionStep.playerMessage 5 dupMsg]).player2.currentMana ≤ 10 :=
  session_mana_bounds "g1" accAlice accBob fxConfig
    [SessionStep.tickRegen, SessionStep.playerMessage 5 dupMsg]
    (by unfold troopCostsNonneg fxConfig; decide)

/-- C2: a deploy-troop message whose (token, sequence) pair is already in
the processed-command table changes nothing in the session state — no mana
deduction, no troop, no heal — and the acknowledgment carrying that
sequence number is resent (the sender's address is always on record, since
the UDP reader stores it before the handler runs). -/
theorem duplicate_deploy_idempotent (gs : GameState) (now : Nat)
    (msg : UDPMessage) (troopID : String) (addr : Nat)
    (hact : msg.action = UDPAction.deployTroop troopID)
    (hsid : msg.sessionID = gs.id)
    (hdup : (processedSeqs gs msg.playerToken).contains msg.seq = true)
    (haddr : gs.playerClientAddresses.lookup msg.playerToken = some addr) :
    handlePlayerAction gs now msg
      = (gs, [ServerOutput.commandAck msg.playerToken msg.seq]) := by
  unfold handlePlayerAction
  rw [if_neg (by simp [hsid])]
  simp only [hact]
  rw [deployTroopStep_dup gs now msg.playerToken msg.seq troopID hdup]
  unfold ackOutputs eventToPlayer
  simp only [haddr]

/-- Witness for C2: sequence 7 of player `alice` is already processed;
handling the duplicate returns the state unchanged plus the ACK. -/
theorem duplicate_deploy_idempotent_witness :
    handlePlayerAction dupState 99 dupMsg
      = (dupState, [ServerOutput.commandAck "alice" 7]) :=
  duplicate_deploy_idempotent dupState 99 dupMsg "pawn" 1 rfl rfl
    (by decide) (by decide)

/-- C6: a deploy command with an unknown troop id, or whose mana cost
exceeds the deploying player's current mana, is rejected: the session
state is returned unchanged (no mana deducted, no troop created, no heal)
and an error game-event is sent to the offending player. -/
theorem deploy_rejection_spec (gs : GameState) (now : Nat) (tok : String)
    (seq : Nat) (troopID : String) (side : PSide) (addr : Nat)
    (hdup : (processedSeqs gs tok).contains seq = false)
    (hside : sideOfToken gs tok = some side)
    (haddr : gs.playerClientAddresses.lookup tok = some addr) :
    (gs.config.troops.lookup troopID = none →
      deployTroopStep gs now tok seq troopID
        = (gs, [ServerOutput.gameEventError tok
            ("Unknown troop type: " ++ troopID)])) ∧
    (∀ spec : TroopSpec, gs.config.troops.lookup troopID = some spec →
      (gs.getPlayer side).currentMana < spec.manaCost →
      deployTroopStep gs now tok seq troopID
        = (gs, [ServerOutput.gameEventError tok
            ("Not enough mana for " ++ spec.name ++ ". Need "
              ++ toString spec.manaCost ++ ", have "
              ++ toString (gs.getPlayer side).currentMana)])) := by
  have htok := sideOfToken_token gs tok side hside
  constructor
  · intro hlk
    rw [deployTroopStep_unknown gs now tok seq troopID side hdup hside hlk, htok]
    unfold eventToPlayer
    simp only [haddr]
  · intro spec hlk hm
    rw [deployTroopStep_insufficient gs now tok seq troopID side spec
      hdup hside hlk hm, htok]
    unfold eventToPlayer
    simp only [haddr]

/-- Witness for C6: `alice` (5 mana) tries an unknown troop "dragon" and
then the 9-mana "giant"; both are rejected with an error event and an
unchanged state. -/
theorem deploy_rejection_spec_witness :
    deployTroopStep fxState 3 "alice" 1 "dragon"
      = (fxState, [ServerOutput.gameEventError "alice"
          ("Unknown troop type: " ++ "dragon")]) ∧
    deployTroopStep fxState 3 "alice" 1 "giant"
      = (fxState, [ServerOutput.gameEventError "alice"
          ("Not enough mana for " ++ giantSpec.name ++ ". Need "
            ++ toString giantSpec.manaCost ++ ", have "
            ++ toString (fxState.getPlayer PSide.one).currentMana)]) :=
  ⟨(deploy_rejection_spec fxState 3 "alice" 1 "dragon" PSide.one 1
      (by decide) (by decide) (by decide)).1 (by decide),
   (deploy_rejection_spec fxState 3 "alice" 1 "giant" PSide.one 1
      (by decide) (by decide) (by decide)).2 giantSpec (by decide) (by decide)⟩

theorem getPlayer_setPlayer (gs : GameState) (side : PSide) (p : PlayerInGame) :
    (gs.setPlayer side p).getPlayer side = p := by
  cases side <;> rfl

theorem chooseHealTarget_spec (towers : List TowerInstance)
    (target : TowerInstance) (h : chooseHealTarget towers = some target) :
    eligibleForHeal target = true ∧
    ∀ t ∈ towers, eligibleForHeal t = true → target.currentHP ≤ t.currentHP := by
  unfold chooseHealTarget firstMinHP at h
  obtain ⟨hmem, hmin⟩ := firstMinKey_spec _ _ _ h
  rw [List.mem_filter] at hmem
  exact ⟨hmem.2, fun t ht he => hmin t (List.mem_filter.mpr ⟨ht, he⟩)⟩

theorem healTower_clamp (t : TowerInstance) (amt : Int) :
    (HealTower t amt).currentHP = min t.maxHP (t.currentHP + amt) := by
  simp only [HealTower]
  split <;> omega

theorem queenDeploy_spec_aux (gs : GameState) (side : PSide) (tok : String)
    (seq : Nat) :
    (queenDeploy gs side tok seq).1.activeTroops = gs.activeTroops ∧
    (queenDeploy gs side tok seq).1.player1.deployedTroops
        = gs.player1.deployedTroops ∧
    (queenDeploy gs side tok seq).1.player2.deployedTroops
        = gs.player2.deployedTroops ∧
    ((queenDeploy gs side tok seq).1.getPlayer side).currentMana
        = (gs.getPlayer side).currentMana ∧
    (∀ target : TowerInstance,
      chooseHealTarget (gs.getPlayer side).towers = some target →
        ((queenDeploy gs side tok seq).1.getPlayer side).towers
            = replaceFirst (gs.getPlayer side).towers target
                (HealTower target 300) ∧
        ServerOutput.queenHealEvent (gs.getPlayer side).account.username
            (some (target.gameSpecificID,
              (HealTower target 300).currentHP - target.currentHP,
              (HealTower target 300).currentHP))
          ∈ (queenDeploy gs side tok seq).2) ∧
    (chooseHealTarget (gs.getPlayer side).towers = none →
      ((queenDeploy gs side tok seq).1.getPlayer side).towers
          = (gs.getPlayer side).towers ∧
      ServerOutput.queenHealEvent (gs.getPlayer side).account.username none
        ∈ (queenDeploy gs side tok seq).2) := by
  cases side
  case one =>
    cases hct : chooseHealTarget gs.player1.towers with
    | none =>
      refine ⟨?_, ?_, ?_, ?_, ?_, ?_⟩ <;>
        simp [queenDeploy, GameState.getPlayer, GameState.setPlayer, hct]
    | some target0 =>
      refine ⟨?_, ?_, ?_, ?_, ?_, ?_⟩ <;>
        simp [queenDeploy, GameState.getPlayer, GameState.setPlayer, hct]
  case two =>
    cases hct : chooseHealTarget gs.player2.towers with
    | none =>
      refine ⟨?_, ?_, ?_, ?_, ?_, ?_⟩ <;>
        simp [queenDeploy, GameState.getPlayer, GameState.setPlayer, hct]
    | some target0 =>
      refine ⟨?_, ?_, ?_, ?_, ?_, ?_⟩ <;>
        simp [queenDeploy, GameState.getPlayer, GameState.setPlayer, hct]

/-- C7: a successful deploy of the "queen" troop adds no troop to the live
collections; the deploying player's mana drops by the cost; when some own
tower has 0 < HP < max HP, a lowest-current-HP such tower is healed by 300
clamped to its max HP and the broadcast heal event carries its id; when no
own tower is eligible the towers are unchanged (the mana is still spent)
and the heal event carries no tower id. -/
theorem queen_deploy_spec (gs : GameState) (now : Nat) (tok : String)
    (seq : Nat) (troopID : String) (side : PSide) (spec : TroopSpec)
    (hdup : (processedSeqs gs tok).contains seq = false)
    (hside : sideOfToken gs tok = some side)
    (hlk : gs.config.troops.lookup troopID = some spec)
    (hmana : ¬ (gs.getPlayer side).currentMana < spec.manaCost)
    (hqueen : strLower spec.id = "queen") :
    (deployTroopStep gs now tok seq troopID).1.activeTroops = gs.activeTroops ∧
    (deployTroopStep gs now tok seq troopID).1.player1.deployedTroops
        = gs.player1.deployedTroops ∧
    (deployTroopStep gs now tok seq troopID).1.player2.deployedTroops
        = gs.player2.deployedTroops ∧
    ((deployTroopStep gs now tok seq troopID).1.getPlayer side).currentMana
        = (gs.getPlayer side).currentMana - spec.manaCost ∧
    (∀ target : TowerInstance,
      chooseHealTarget (gs.getPlayer side).towers = some target →
        eligibleForHeal target = true ∧
        (∀ t ∈ (gs.getPlayer side).towers, eligibleForHeal t = true →
          target.currentHP ≤ t.currentHP) ∧
        ((deployTroopStep gs now tok seq troopID).1.getPlayer side).towers
            = replaceFirst (gs.getPlayer side).towers target
                (HealTower target 300) ∧
        (HealTower target 300).currentHP
            = min target.maxHP (target.currentHP + 300) ∧
        ServerOutput.queenHealEvent (gs.getPlayer side).account.username
            (some (target.gameSpecificID,
              (HealTower target 300).currentHP - target.currentHP,
              (HealTower target 300).currentHP))
          ∈ (deployTroopStep gs now tok seq troopID).2) ∧
    (chooseHealTarget (gs.getPlayer side).towers = none →
      ((deployTroopStep gs now tok seq troopID).1.getPlayer side).towers
          = (gs.getPlayer side).towers ∧
      ServerOutput.queenHealEvent (gs.getPlayer side).account.username none
        ∈ (deployTroopStep gs now tok seq troopID).2) := by
  rw [deployTroopStep_queen gs now tok seq troopID side spec
    hdup hside hlk hmana hqueen]
  obtain ⟨a1, a2, a3, a4, a5, a6⟩ := queenDeploy_spec_aux
    (gs.setPlayer side
      { gs.getPlayer side with
        currentMana := (gs.getPlayer side).currentMana - spec.manaCost })
    side tok seq
  cases side
  case one =>
    refine ⟨a1, a2, a3, a4, ?_, ?_⟩
    · intro target hct
      obtain ⟨e1, e2⟩ := chooseHealTarget_spec _ target hct
      obtain ⟨h5a, h5b⟩ := a5 target hct
      exact ⟨e1, e2, h5a, healTower_clamp target 300, h5b⟩
    · intro hct
      exact a6 hct
  case two =>
    refine ⟨a1, a2, a3, a4, ?_, ?_⟩
    · intro target hct
      obtain ⟨e1, e2⟩ := chooseHealTarget_spec _ target hct
      obtain ⟨h5a, h5b⟩ := a5 target hct
      exact ⟨e1, e2, h5a, healTower_clamp target 300, h5b⟩
    · intro hct
      exact a6 hct

/-- Witness for C7: `alice` deploys the queen with exactly enough mana;
her damaged guard tower (400/1000) is healed to 700, no troop is created,
and the heal event carries the tower id. -/
theorem queen_deploy_spec_witness :
    (deployTroopStep fxState 3 "alice" 1 "queen").1.activeTroops
        = fxState.activeTroops ∧
    ((deployTroopStep fxState 3 "alice" 1 "queen").1.getPlayer
        PSide.one).currentMana
      = (fxState.getPlayer PSide.one).currentMana - queenSpec.manaCost ∧
    ((deployTroopStep fxState 3 "alice" 1 "queen").1.getPlayer PSide.one).towers
      = replaceFirst (fxState.getPlayer PSide.one).towers fxAliceGuard1
          (HealTower fxAliceGuard1 300) ∧
    (HealTower fxAliceGuard1 300).currentHP
      = min fxAliceGuard1.maxHP (fxAliceGuard1.currentHP + 300) ∧
    (HealTower fxAliceGuard1 300).currentHP = 700 ∧
    ServerOutput.queenHealEvent
        (fxState.getPlayer PSide.one).account.username
        (some (fxAliceGuard1.gameSpecificID,
          (HealTower fxAliceGuard1 300).currentHP - fxAliceGuard1.currentHP,
          (HealTower fxAliceGuard1 300).currentHP))
      ∈ (deployTroopStep fxState 3 "alice" 1 "queen").2 := by
  have h := queen_deploy_spec fxState 3 "alice" 1 "queen" PSide.one queenSpec
    (by decide) (by decide) (by decide) (by decide) (by decide)
  have h5 := h.2.2.2.2.1 fxAliceGuard1 (by decide)
  exact ⟨h.1, h.2.2.2.1, h5.2.2.1, h5.2.2.2.1, by decide, h5.2.2.2.2⟩
